import Mathlib

/-!
Shallow embedding of the student-portal client (dashboard.js, signup.js,
login.js).  DOM text nodes are strings, class lists are lists of strings,
rendered course lists are lists of `ListItem`, and each event handler or
async action is translated to a pure state transformer that additionally
returns the list of observable effects (status writes, network requests,
console output) in program order.  JavaScript truthiness on optional
strings (`x || d`) is modelled by `jsOr`, optional chaining by `Option`.
-/

/-- JS-style character list: `charsLead s p` holds when `p` is a leading
segment of `s` (the model of `String.prototype.startsWith`). -/
def charsLead : List Char → List Char → Bool
  | _, [] => true
  | [], _ :: _ => false
  | a :: as, b :: bs => a == b && charsLead as bs

/-- Model of `String.prototype.includes`: `p` occurs contiguously in `s`. -/
def charsHave : List Char → List Char → Bool
  | [], p => p.isEmpty
  | a :: t, p => charsLead (a :: t) p || charsHave t p

/-- `s.startsWith(p)` from JS. -/
def jsStartsWith (s p : String) : Bool := charsLead s.data p.data

/-- `s.includes(p)` from JS. -/
def jsIncludes (s p : String) : Bool := charsHave s.data p.data

/-- JS `x || d` for an optional string `x`: `undefined`/`null` and the
empty string are falsy and give the default. -/
def jsOr (x : Option String) (d : String) : String :=
  match x with
  | none => d
  | some s => if s = "" then d else s

/-- JS `s || d` for a plain string (falsy only when empty). -/
def jsOrStr (s d : String) : String := if s = "" then d else s

/-- JS truthiness of an optional string (e.g. `dataset.courseId`). -/
def jsTruthy (x : Option String) : Bool :=
  match x with
  | none => false
  | some s => s != ""

/-- `classList.add c`: appends `c` unless already present. -/
def classAdd (cl : List String) (c : String) : List String :=
  if c ∈ cl then cl else cl ++ [c]

/-- `classList.remove c`: removes every occurrence of `c`. -/
def classRemove (cl : List String) (c : String) : List String :=
  cl.filter (fun x => x != c)

/-- The `#status-message` element: its text content and class list. -/
structure StatusEl where
  textContent : String
  classes : List String
  deriving Repr, DecidableEq

/-- dashboard.js `setStatusMessage(message, type)` (lines 11-24): writes
the text, then adjusts the `success-message` / `error-message` classes
according to the type. -/
def setStatusMessage (st : StatusEl) (message type : String) : StatusEl :=
  let st := { st with textContent := message }
  if type = "success" then
    { st with classes := classAdd (classRemove st.classes "error-message") "success-message" }
  else if type = "error" then
    { st with classes := classAdd (classRemove st.classes "success-message") "error-message" }
  else
    { st with classes := classRemove (classRemove st.classes "success-message") "error-message" }

/-- The condition of dashboard.js lines 29-34: does the current text look
like one of the known action messages? -/
def isActionMessage (currentText : String) : Bool :=
  jsStartsWith currentText "Marking" ||
  jsIncludes currentText "finished!" ||
  jsStartsWith currentText "Disenroll" ||
  jsStartsWith currentText "Successfully disenrolled!" ||
  jsStartsWith currentText "Enrollment" ||
  jsStartsWith currentText "Successfully enrolled!"

/-- dashboard.js `clearStatusMessageAfterDelay` (lines 26-40) evaluates the
action-message check on the text displayed at call time and arms a timer
exactly when it holds; the value is whether a timer was armed. -/
def clearStatusMessageAfterDelay (st : StatusEl) : Bool :=
  isActionMessage st.textContent

/-- The body of the armed timer (dashboard.js lines 35-38): empty the text
and drop both kind classes, with no further check. -/
def clearTimerCallback (st : StatusEl) : StatusEl :=
  { textContent := "",
    classes := classRemove (classRemove st.classes "success-message") "error-message" }

/-- Status channel with an optional pending auto-clear timer. -/
structure ChannelState where
  status : StatusEl
  timerArmed : Bool
  deriving Repr, DecidableEq

/-- Events on the status channel: a `setStatusMessage` call, a call to
`clearStatusMessageAfterDelay`, and the firing of an armed timer. -/
inductive ChannelEv where
  | setMsg (m k : String)
  | callClear
  | timerFire
  deriving Repr, DecidableEq

/-- Small-step semantics of the status channel, read off dashboard.js:
arming consults `isActionMessage` at call time, firing clears
unconditionally. -/
def channelStep (s : ChannelState) : ChannelEv → ChannelState
  | .setMsg m k => { s with status := setStatusMessage s.status m k }
  | .callClear => { s with timerArmed := s.timerArmed || clearStatusMessageAfterDelay s.status }
  | .timerFire =>
      if s.timerArmed then { status := clearTimerCallback s.status, timerArmed := false }
      else s

/-- Run a sequence of channel events. -/
def channelRun (s : ChannelState) (evs : List ChannelEv) : ChannelState :=
  evs.foldl channelStep s

/-- A course record as received from `/api/dashboard`: `course_id` plus
optional `name` and `description` (absent fields are `none`). -/
structure Course where
  course_id : Nat
  name : Option String
  description : Option String
  deriving Repr, DecidableEq

/-- An action affordance rendered inside a course row. -/
inductive CourseAction where
  | enrollButton (courseId : Nat)
  | markFinishedButton (courseId : Nat)
  | disenrollButton (courseId : Nat)
  | completedBadge
  deriving Repr, DecidableEq

/-- One `<li>` of a course list: either the empty-bucket placeholder or a
course row with its title, description and action affordances. -/
inductive ListItem where
  | placeholder (text : String)
  | courseRow (title desc : String) (actions : List CourseAction)
  deriving Repr, DecidableEq

/-- The bucket-specific empty-list message of dashboard.js lines 47-50. -/
def emptyMessage (courseStatusType : String) : String :=
  if courseStatusType = "enrolled" then "No courses currently enrolled."
  else if courseStatusType = "available" then "No courses available for enrollment."
  else if courseStatusType = "finished" then "No courses finished yet."
  else "No courses found."

/-- The `buttonsHtml` computed in dashboard.js lines 57-68 for one course,
as the list of action affordances it denotes. -/
def buttonsHtml (courseStatusType : String) (course : Course) : List CourseAction :=
  if courseStatusType = "available" then
    [.enrollButton course.course_id]
  else if courseStatusType = "enrolled" then
    [.markFinishedButton course.course_id, .disenrollButton course.course_id]
  else if courseStatusType = "finished" then
    [.completedBadge]
  else []

/-- dashboard.js `renderCourses(courses, targetElement, courseStatusType)`
(lines 43-79): first empties the target (`innerHTML = ''`), then either
writes the one placeholder row or appends one row per course, each built
from `name || 'Unnamed Course'`, `description || 'No description
available.'` and the bucket-specific buttons.  `courses = none` models a
null/undefined argument. -/
def renderCourses (courses : Option (List Course)) (courseStatusType : String)
    (targetElement : List ListItem) : List ListItem :=
  let targetElement := ([] : List ListItem)
  match courses with
  | none => targetElement ++ [.placeholder (emptyMessage courseStatusType)]
  | some cs =>
    if cs.length = 0 then
      targetElement ++ [.placeholder (emptyMessage courseStatusType)]
    else
      cs.foldl (fun acc course =>
        acc ++ [.courseRow (jsOr course.name "Unnamed Course")
                  (jsOr course.description "No description available.")
                  (buttonsHtml courseStatusType course)]) targetElement

/-- Observable effects of the dashboard handlers, in program order. -/
inductive Effect where
  | setStatus (text kind : String)
  | request (url : String)
  | consoleError
  | consoleLog
  | actionEnroll (courseId : String)
  | actionDisenroll (courseId : String)
  | actionMarkFinished (courseId : String)
  deriving Repr, DecidableEq

/-- The network requests occurring in an effect trace. -/
def requestsOf (tr : List Effect) : List Effect :=
  tr.filter fun e =>
    match e with
    | .request _ => true
    | _ => false

/-- The action-function invocations occurring in an effect trace (each one
issues a network call when run). -/
def actionsOf (tr : List Effect) : List Effect :=
  tr.filter fun e =>
    match e with
    | .actionEnroll _ => true
    | .actionDisenroll _ => true
    | .actionMarkFinished _ => true
    | _ => false

/-- The `student` object of a dashboard response. -/
structure Student where
  name : Option String
  deriving Repr, DecidableEq

/-- Parsed JSON body of a 2xx `/api/dashboard` response; absent arrays are
`none` (dashboard.js applies `|| []`). -/
structure DashData where
  student : Option Student
  enrolled : Option (List Course)
  available : Option (List Course)
  finished : Option (List Course)
  deriving Repr, DecidableEq

/-- Outcome of the `/api/dashboard` fetch: a response with status code,
status text and (when the body parses as JSON) the parsed body, or a
network failure (the promise rejects). -/
inductive DashFetch where
  | response (status : Nat) (statusText : String) (body : Option DashData)
  | networkError
  deriving Repr, DecidableEq

/-- `response.ok`: HTTP status in the 2xx range. -/
def respOkStatus (s : Nat) : Bool := 200 ≤ s && s ≤ 299

/-- The dashboard page DOM as the client mutates it, plus the pending
timers the handlers arm. -/
structure Dom where
  studentName : String
  enrolledList : List ListItem
  availableList : List ListItem
  finishedList : List ListItem
  status : StatusEl
  clearTimerArmed : Bool
  scheduledRedirect : Option (String × Nat)
  deriving Repr, DecidableEq

/-- dashboard.js `fetchDashboardData` (lines 81-115) as a state
transformer on the DOM given the fetch outcome, paired with its effect
trace.  2xx with JSON body renders the three buckets; 2xx whose body
fails to parse throws at `response.json()` and lands in the catch branch;
401/403 sets the session-expired status and schedules the redirect to the
login page after 2000 ms; other statuses set an error status and write
the could-not-load placeholders; a network error writes the connectivity
status and the error placeholders. -/
def fetchDashboardData (resp : DashFetch) (d : Dom) : Dom × List Effect :=
  let req : List Effect := [.request "/api/dashboard"]
  match resp with
  | .networkError =>
    ({ d with
        status := setStatusMessage d.status "Could not connect to server to load dashboard." "error",
        enrolledList := [.placeholder "Error loading enrolled courses."],
        availableList := [.placeholder "Error loading available courses."],
        finishedList := [.placeholder "Error loading finished courses."] },
     req ++ [.consoleError,
             .setStatus "Could not connect to server to load dashboard." "error"])
  | .response status statusText body =>
    if respOkStatus status then
      match body with
      | some data =>
        ({ d with
            studentName :=
              match data.student with
              | some st => jsOr st.name "User"
              | none => "User",
            enrolledList := renderCourses (some (data.enrolled.getD [])) "enrolled" d.enrolledList,
            availableList := renderCourses (some (data.available.getD [])) "available" d.availableList,
            finishedList := renderCourses (some (data.finished.getD [])) "finished" d.finishedList },
         req)
      | none =>
        ({ d with
            status := setStatusMessage d.status "Could not connect to server to load dashboard." "error",
            enrolledList := [.placeholder "Error loading enrolled courses."],
            availableList := [.placeholder "Error loading available courses."],
            finishedList := [.placeholder "Error loading finished courses."] },
         req ++ [.consoleError,
                 .setStatus "Could not connect to server to load dashboard." "error"])
    else if status == 401 || status == 403 then
      ({ d with
          status := setStatusMessage d.status
            "Session expired or unauthorized. Redirecting to login..." "error",
          scheduledRedirect := some ("/login.html", 2000) },
       req ++ [.consoleLog,
               .setStatus "Session expired or unauthorized. Redirecting to login..." "error"])
    else
      ({ d with
          status := setStatusMessage d.status
            ("Error loading dashboard: " ++ jsOrStr statusText "Unknown error") "error",
          enrolledList := [.placeholder "Could not load enrolled courses."],
          availableList := [.placeholder "Could not load available courses."],
          finishedList := [.placeholder "Could not load finished courses."] },
       req ++ [.consoleError,
               .setStatus ("Error loading dashboard: " ++ jsOrStr statusText "Unknown error") "error"])

/-- Parsed JSON body of a mutation-endpoint response: an object with an
optional `message` field. -/
structure RespBody where
  message : Option String
  deriving Repr, DecidableEq

/-- Outcome of a mutation fetch (`/api/enroll`, `/api/disenroll`,
`/api/course/finish`): a response with status and, when
`response.json()` succeeds, the parsed body (`none` models the
`.catch(() => null)` fallback), or a network failure. -/
inductive FetchResult where
  | response (status : Nat) (body : Option RespBody)
  | networkError
  deriving Repr, DecidableEq

/-- JS `responseData?.message`: `none` when the data is null or the field
is absent. -/
def optMessage (body : Option RespBody) : Option String :=
  match body with
  | none => none
  | some d => d.message

/-- dashboard.js `enrollInCourse` (lines 117-139).  Sets the in-progress
status, issues the POST, then: on 2xx with JSON body sets the success
status (`responseData.message || 'Successfully enrolled!'`) and awaits
`fetchDashboardData`; on 2xx without JSON body `responseData.message`
throws on null and the catch branch runs; on non-2xx sets the error
status from `responseData?.message` with the status-code fallback; on
network failure the catch branch runs.  Finally it calls
`clearStatusMessageAfterDelay` on whatever status is then displayed. -/
def enrollInCourse (resp : FetchResult) (dash : DashFetch) (d : Dom) : Dom × List Effect :=
  let d0 := { d with status := setStatusMessage d.status "Enrolling..." "info" }
  let pre : List Effect := [.setStatus "Enrolling..." "info", .request "/api/enroll"]
  let r : Dom × List Effect :=
    match resp with
    | .networkError =>
      ({ d0 with status := setStatusMessage d0.status "An error occurred during enrollment." "error" },
       pre ++ [.consoleError, .setStatus "An error occurred during enrollment." "error"])
    | .response status body =>
      if respOkStatus status then
        match body with
        | some data =>
          let msg := jsOr data.message "Successfully enrolled!"
          let d1 := { d0 with status := setStatusMessage d0.status msg "success" }
          let f := fetchDashboardData dash d1
          (f.1, pre ++ [.setStatus msg "success"] ++ f.2)
        | none =>
          ({ d0 with status := setStatusMessage d0.status "An error occurred during enrollment." "error" },
           pre ++ [.consoleError, .setStatus "An error occurred during enrollment." "error"])
      else
        let msg := jsOr (optMessage body) ("Enrollment failed (Status: " ++ toString status ++ ")")
        ({ d0 with status := setStatusMessage d0.status msg "error" },
         pre ++ [.setStatus msg "error", .consoleError])
  ({ r.1 with clearTimerArmed := r.1.clearTimerArmed || clearStatusMessageAfterDelay r.1.status },
   r.2)

/-- dashboard.js `disenrollFromCourse` (lines 141-163), same shape as
`enrollInCourse` with the disenrollment endpoint and messages. -/
def disenrollFromCourse (resp : FetchResult) (dash : DashFetch) (d : Dom) : Dom × List Effect :=
  let d0 := { d with status := setStatusMessage d.status "Disenrolling..." "info" }
  let pre : List Effect := [.setStatus "Disenrolling..." "info", .request "/api/disenroll"]
  let r : Dom × List Effect :=
    match resp with
    | .networkError =>
      ({ d0 with status := setStatusMessage d0.status "An error occurred during disenrollment." "error" },
       pre ++ [.consoleError, .setStatus "An error occurred during disenrollment." "error"])
    | .response status body =>
      if respOkStatus status then
        match body with
        | some data =>
          let msg := jsOr data.message "Successfully disenrolled!"
          let d1 := { d0 with status := setStatusMessage d0.status msg "success" }
          let f := fetchDashboardData dash d1
          (f.1, pre ++ [.setStatus msg "success"] ++ f.2)
        | none =>
          ({ d0 with status := setStatusMessage d0.status "An error occurred during disenrollment." "error" },
           pre ++ [.consoleError, .setStatus "An error occurred during disenrollment." "error"])
      else
        let msg := jsOr (optMessage body) ("Disenrollment failed (Status: " ++ toString status ++ ")")
        ({ d0 with status := setStatusMessage d0.status msg "error" },
         pre ++ [.setStatus msg "error", .consoleError])
  ({ r.1 with clearTimerArmed := r.1.clearTimerArmed || clearStatusMessageAfterDelay r.1.status },
   r.2)

/-- dashboard.js `markCourseAsFinished` (lines 165-187), same shape as
`enrollInCourse` with the course-finish endpoint and messages. -/
def markCourseAsFinished (resp : FetchResult) (dash : DashFetch) (d : Dom) : Dom × List Effect :=
  let d0 := { d with status := setStatusMessage d.status "Marking as finished..." "info" }
  let pre : List Effect := [.setStatus "Marking as finished..." "info", .request "/api/course/finish"]
  let r : Dom × List Effect :=
    match resp with
    | .networkError =>
      ({ d0 with status := setStatusMessage d0.status "An error occurred while marking the course as finished." "error" },
       pre ++ [.consoleError,
               .setStatus "An error occurred while marking the course as finished." "error"])
    | .response status body =>
      if respOkStatus status then
        match body with
        | some data =>
          let msg := jsOr data.message "Course marked as finished!"
          let d1 := { d0 with status := setStatusMessage d0.status msg "success" }
          let f := fetchDashboardData dash d1
          (f.1, pre ++ [.setStatus msg "success"] ++ f.2)
        | none =>
          ({ d0 with status := setStatusMessage d0.status "An error occurred while marking the course as finished." "error" },
           pre ++ [.consoleError,
                   .setStatus "An error occurred while marking the course as finished." "error"])
      else
        let msg := jsOr (optMessage body)
          ("Failed to mark as finished (Status: " ++ toString status ++ ")")
        ({ d0 with status := setStatusMessage d0.status msg "error" },
         pre ++ [.setStatus msg "error", .consoleError])
  ({ r.1 with clearTimerArmed := r.1.clearTimerArmed || clearStatusMessageAfterDelay r.1.status },
   r.2)

/-- The click handler on `#available-courses-list` (dashboard.js lines
191-205), given the clicked element's class list and `dataset.courseId`
(`none` when the attribute is absent): only reacts to `enroll-button`
elements, invoking `enrollInCourse` when a truthy course id is present
and otherwise logging an error and setting the error status. -/
def availableListClick (classes : List String) (courseId : Option String) : List Effect :=
  if classes.contains "enroll-button" then
    if jsTruthy courseId then
      [.actionEnroll (courseId.getD "")]
    else
      [.consoleError, .setStatus "Error: Could not identify course to enroll." "error"]
  else []

/-- The click handler on `#enrolled-courses-list` (dashboard.js lines
207-223): returns silently when the course id is falsy, otherwise
dispatches on the `disenroll-button` / `mark-finished-button` classes. -/
def enrolledListClick (classes : List String) (courseId : Option String) : List Effect :=
  if jsTruthy courseId = false then []
  else if classes.contains "disenroll-button" then
    [.actionDisenroll (courseId.getD "")]
  else if classes.contains "mark-finished-button" then
    [.actionMarkFinished (courseId.getD "")]
  else []

/-- Characters removed by `String.prototype.trim` (the whitespace the
inputs here can contain). -/
def jsIsSpace (c : Char) : Bool :=
  c == ' ' || c == '\t' || c == '\n' || c == '\r'

/-- JS `s.trim()` over the character list of `s`. -/
def jsTrim (s : String) : String :=
  ⟨((s.data.dropWhile jsIsSpace).reverse.dropWhile jsIsSpace).reverse⟩

/-- Outcome of the signup submit handler: blocked client-side with a
message, or the POST to `/api/signup` with the payload it sends. -/
inductive SignupOutcome where
  | blocked (message : String)
  | submit (name email password : String)
  deriving Repr, DecidableEq

/-- signup.js submit handler validation (lines 14-53): trims name and
email, blocks on any empty field, then on a password mismatch, then on a
password shorter than 6 characters, and only otherwise issues the POST
with `{name, email, password}`. -/
def signupSubmit (nameRaw emailRaw password confirmPassword : String) : SignupOutcome :=
  let name := jsTrim nameRaw
  let email := jsTrim emailRaw
  if name = "" ∨ email = "" ∨ password = "" ∨ confirmPassword = "" then
    .blocked "Please fill in all fields."
  else if password ≠ confirmPassword then
    .blocked "Passwords do not match."
  else if password.length < 6 then
    .blocked "Password must be at least 6 characters long."
  else
    .submit name email password

/-- An initial dashboard DOM used for concrete instantiations. -/
def dom0 : Dom :=
  { studentName := "", enrolledList := [], availableList := [], finishedList := [],
    status := { textContent := "", classes := [] },
    clearTimerArmed := false, scheduledRedirect := none }

/-- Did the mutation fetch fail (non-2xx response or network failure)? -/
def mutationFailed (r : FetchResult) : Bool :=
  match r with
  | .networkError => true
  | .response s _ => !(respOkStatus s)

lemma mem_classRemove {cl : List String} {a c : String} :
    a ∈ classRemove cl c ↔ a ∈ cl ∧ a ≠ c := by
  simp [classRemove, List.mem_filter, bne_iff_ne]

lemma mem_classAdd {cl : List String} {a c : String} :
    a ∈ classAdd cl c ↔ a ∈ cl ∨ a = c := by
  by_cases h : c ∈ cl
  · simp only [classAdd, if_pos h]
    constructor
    · exact Or.inl
    · rintro (h' | rfl)
      · exact h'
      · exact h
  · simp [classAdd, if_neg h, List.mem_append]

lemma foldl_append_eq_map {α β : Type} (f : α → β) (cs : List α) (acc : List β) :
    cs.foldl (fun a c => a ++ [f c]) acc = acc ++ cs.map f := by
  induction cs generalizing acc with
  | nil => simp
  | cons c cs ih => simp [List.foldl_cons, ih]

lemma requestsOf_append (a b : List Effect) :
    requestsOf (a ++ b) = requestsOf a ++ requestsOf b := by
  simp [requestsOf, List.filter_append]

lemma requestsOf_setStatus_cons (m k : String) (tr : List Effect) :
    requestsOf (Effect.setStatus m k :: tr) = requestsOf tr := rfl

lemma setStatusMessage_textContent (st : StatusEl) (m k : String) :
    (setStatusMessage st m k).textContent = m := by
  simp only [setStatusMessage]
  split
  · rfl
  · split <;> rfl

lemma requestsOf_fetchDashboardData (resp : DashFetch) (d : Dom) :
    requestsOf (fetchDashboardData resp d).2 = [Effect.request "/api/dashboard"] := by
  cases resp with
  | networkError => rfl
  | response s stx body =>
    simp only [fetchDashboardData]
    split
    · cases body <;> rfl
    · split <;> rfl

lemma fetchDashboardData_trace_irrel (resp : DashFetch) (d d' : Dom) :
    (fetchDashboardData resp d).2 = (fetchDashboardData resp d').2 := by
  cases resp with
  | networkError => rfl
  | response s stx body =>
    simp only [fetchDashboardData]
    split
    · cases body <;> rfl
    · split <;> rfl

/-- C1 counterexample: the clear timer is armed while the action message
"Successfully enrolled!" is displayed, a newer message that does not
match the stale-action predicate is then set, and the firing timer still
clears it — the predicate is not re-checked at fire time. -/
theorem clearTimer_stomps_newer_message :
    (channelRun ⟨⟨"Successfully enrolled!", []⟩, false⟩
        [ChannelEv.callClear, ChannelEv.setMsg "Dashboard refreshed" "info"]).timerArmed = true
    ∧ isActionMessage "Dashboard refreshed" = false
    ∧ (channelRun ⟨⟨"Successfully enrolled!", []⟩, false⟩
        [ChannelEv.callClear, ChannelEv.setMsg "Dashboard refreshed" "info",
         ChannelEv.timerFire]).status.textContent = "" := by decide

/-- C1 (amended): `clearStatusMessageAfterDelay` evaluates the
stale-action predicate on the message displayed at the moment the timer
is armed, and arms a timer exactly when it holds; once armed, the firing
timer unconditionally empties the displayed message (and both kind
classes), with no re-check of the predicate at fire time. -/
theorem clearTimer_predicate_checked_at_arm_time (s : ChannelState) :
    (channelStep s ChannelEv.callClear).timerArmed
        = (s.timerArmed || isActionMessage s.status.textContent)
    ∧ (channelStep s ChannelEv.callClear).status = s.status
    ∧ (s.timerArmed = true →
        (channelStep s ChannelEv.timerFire).status.textContent = ""
        ∧ (channelStep s ChannelEv.timerFire).status.classes
            = classRemove (classRemove s.status.classes "success-message") "error-message"
        ∧ (channelStep s ChannelEv.timerFire).timerArmed = false)
    ∧ (s.timerArmed = false → channelStep s ChannelEv.timerFire = s) := by
  refine ⟨rfl, rfl, ?_, ?_⟩ <;> intro h <;>
    simp [channelStep, h, clearTimerCallback, clearStatusMessageAfterDelay]

/-- C1 witness: the amended theorem instantiated at concrete channel
states with the timer armed and disarmed. -/
theorem clearTimer_predicate_checked_at_arm_time_witness :
    (channelStep ⟨⟨"Hi", []⟩, true⟩ ChannelEv.timerFire).status.textContent = ""
    ∧ channelStep ⟨⟨"Hi", []⟩, false⟩ ChannelEv.timerFire = ⟨⟨"Hi", []⟩, false⟩ :=
  ⟨((clearTimer_predicate_checked_at_arm_time ⟨⟨"Hi", []⟩, true⟩).2.2.1 rfl).1,
   (clearTimer_predicate_checked_at_arm_time ⟨⟨"Hi", []⟩, false⟩).2.2.2 rfl⟩

/-- C10: after any `setStatusMessage` call the status element carries at
most one of the classes `success-message` and `error-message`: a success
call removes `error-message`, an error call removes `success-message`,
and any other kind removes both. -/
theorem setStatusMessage_kind_classes (st : StatusEl) (m k : String) :
    ¬("success-message" ∈ (setStatusMessage st m k).classes
        ∧ "error-message" ∈ (setStatusMessage st m k).classes)
    ∧ (k = "success" → "error-message" ∉ (setStatusMessage st m k).classes)
    ∧ (k = "error" → "success-message" ∉ (setStatusMessage st m k).classes)
    ∧ (k ≠ "success" → k ≠ "error" →
        "success-message" ∉ (setStatusMessage st m k).classes
        ∧ "error-message" ∉ (setStatusMessage st m k).classes) := by
  have hne : ("success-message" : String) ≠ "error-message" := by decide
  by_cases h1 : k = "success"
  · simp [setStatusMessage, h1, mem_classAdd, mem_classRemove, hne]
  · by_cases h2 : k = "error"
    · simp [setStatusMessage, h1, h2, mem_classAdd, mem_classRemove, hne, Ne.symm hne]
    · simp [setStatusMessage, h1, h2, mem_classAdd, mem_classRemove, hne, Ne.symm hne]

/-- C10 witness: the per-kind removal facts instantiated at a status
element carrying both classes. -/
theorem setStatusMessage_kind_classes_witness :
    "error-message" ∉
      (setStatusMessage ⟨"x", ["success-message", "error-message"]⟩ "ok" "success").classes
    ∧ "success-message" ∉
      (setStatusMessage ⟨"x", ["success-message", "error-message"]⟩ "bad" "error").classes
    ∧ "success-message" ∉
      (setStatusMessage ⟨"x", ["success-message", "error-message"]⟩ "hi" "info").classes :=
  ⟨(setStatusMessage_kind_classes ⟨"x", ["success-message", "error-message"]⟩ "ok" "success").2.1 rfl,
   (setStatusMessage_kind_classes ⟨"x", ["success-message", "error-message"]⟩ "bad" "error").2.2.1 rfl,
   ((setStatusMessage_kind_classes ⟨"x", ["success-message", "error-message"]⟩ "hi" "info").2.2.2
      (by decide) (by decide)).1⟩

/-- C5: rendering an absent or empty course list produces exactly the one
bucket-specific placeholder row, with the generic fallback for unknown
buckets. -/
theorem renderCourses_empty_placeholder (b : String) (t : List ListItem) :
    renderCourses none b t = [ListItem.placeholder (emptyMessage b)]
    ∧ renderCourses (some []) b t = [ListItem.placeholder (emptyMessage b)]
    ∧ emptyMessage "enrolled" = "No courses currently enrolled."
    ∧ emptyMessage "available" = "No courses available for enrollment."
    ∧ emptyMessage "finished" = "No courses finished yet."
    ∧ (b ≠ "enrolled" → b ≠ "available" → b ≠ "finished" →
        emptyMessage b = "No courses found.") := by
  refine ⟨rfl, rfl, rfl, rfl, rfl, ?_⟩
  intro h1 h2 h3
  simp [emptyMessage, h1, h2, h3]

/-- C5 witness: the placeholder equations instantiated at the unknown
bucket name "archived". -/
theorem renderCourses_empty_placeholder_witness :
    renderCourses none "archived" [] = [ListItem.placeholder "No courses found."]
    ∧ emptyMessage "archived" = "No courses found." := by
  have h := renderCourses_empty_placeholder "archived" []
  have hm := h.2.2.2.2.2 (by decide) (by decide) (by decide)
  exact ⟨by rw [h.1, hm], hm⟩

/-- C6: a non-empty course list renders one row per course, titled with
the name (fallback "Unnamed Course" when absent or empty), described with
the description (fallback "No description available."), and carrying the
bucket-specific affordances: exactly one Enroll button with the course id
in the available bucket, exactly one Mark-as-Finished and one Disenroll
button with the course id in the enrolled bucket, and only the
non-interactive Completed badge in the finished bucket. -/
theorem renderCourses_nonempty_rows (cs : List Course) (b : String) (t : List ListItem)
    (h : cs ≠ []) :
    renderCourses (some cs) b t
      = cs.map (fun course =>
          ListItem.courseRow (jsOr course.name "Unnamed Course")
            (jsOr course.description "No description available.")
            (buttonsHtml b course))
    ∧ (∀ course : Course,
        buttonsHtml "available" course = [CourseAction.enrollButton course.course_id]
        ∧ buttonsHtml "enrolled" course
            = [CourseAction.markFinishedButton course.course_id,
               CourseAction.disenrollButton course.course_id]
        ∧ buttonsHtml "finished" course = [CourseAction.completedBadge]) := by
  constructor
  · have hlen : ¬(cs.length = 0) := by
      simpa [List.length_eq_zero] using h
    simp only [renderCourses, if_neg hlen]
    exact (foldl_append_eq_map _ cs []).trans (by simp)
  · intro course
    refine ⟨?_, ?_, ?_⟩ <;> simp [buttonsHtml]

/-- C6 witness: a one-course enrolled bucket rendered concretely. -/
theorem renderCourses_nonempty_rows_witness :
    renderCourses (some [⟨3, some "Algebra", none⟩]) "enrolled" [ListItem.placeholder "x"]
      = [ListItem.courseRow "Algebra" "No description available."
          [CourseAction.markFinishedButton 3, CourseAction.disenrollButton 3]] := by
  have h := renderCourses_nonempty_rows [⟨3, some "Algebra", none⟩] "enrolled"
    [ListItem.placeholder "x"] (by decide)
  exact h.1.trans (by decide)

/-- C7: `renderCourses` fully replaces the prior content of the target
list: its result does not depend on what the target contained, so
re-rendering the identical input over the previous output yields the
identical output. -/
theorem renderCourses_replaces_prior_content (courses : Option (List Course)) (b : String)
    (t t' : List ListItem) :
    renderCourses courses b t = renderCourses courses b t'
    ∧ renderCourses courses b (renderCourses courses b t) = renderCourses courses b t :=
  ⟨rfl, rfl⟩

/-- C9: a dashboard fetch answered with 401 or 403 sets the informative
session-expired status (as an error), leaves all three bucket lists and
the greeting untouched, schedules the navigation to the login page after
the fixed 2000 ms delay, and issues no further request (no retry). -/
theorem fetchDashboard_unauthorized_redirect (s : Nat) (stx : String)
    (body : Option DashData) (d : Dom) (h : s = 401 ∨ s = 403) :
    (fetchDashboardData (.response s stx body) d).1.status.textContent
        = "Session expired or unauthorized. Redirecting to login..."
    ∧ "error-message" ∈ (fetchDashboardData (.response s stx body) d).1.status.classes
    ∧ (fetchDashboardData (.response s stx body) d).1.enrolledList = d.enrolledList
    ∧ (fetchDashboardData (.response s stx body) d).1.availableList = d.availableList
    ∧ (fetchDashboardData (.response s stx body) d).1.finishedList = d.finishedList
    ∧ (fetchDashboardData (.response s stx body) d).1.studentName = d.studentName
    ∧ (fetchDashboardData (.response s stx body) d).1.scheduledRedirect
        = some ("/login.html", 2000)
    ∧ requestsOf (fetchDashboardData (.response s stx body) d).2
        = [Effect.request "/api/dashboard"] := by
  rcases h with rfl | rfl <;>
    refine ⟨rfl, ?_, rfl, rfl, rfl, rfl, rfl, rfl⟩ <;>
    exact mem_classAdd.mpr (Or.inr rfl)

/-- C9 witness: the unauthorized theorem instantiated at a concrete 401
response. -/
theorem fetchDashboard_unauthorized_redirect_witness :
    (fetchDashboardData (.response 401 "Unauthorized" none) dom0).1.status.textContent
        = "Session expired or unauthorized. Redirecting to login..."
    ∧ (fetchDashboardData (.response 401 "Unauthorized" none) dom0).1.enrolledList = []
    ∧ (fetchDashboardData (.response 401 "Unauthorized" none) dom0).1.scheduledRedirect
        = some ("/login.html", 2000) := by
  have h := fetchDashboard_unauthorized_redirect 401 "Unauthorized" none dom0 (Or.inl rfl)
  exact ⟨h.1, h.2.2.1, h.2.2.2.2.2.2.1⟩

/-- C2 counterexample: an enroll response with HTTP status 200 whose body
is not JSON (`responseData = null`) makes `responseData.message` throw,
so the catch branch sets the generic error status and no dashboard
re-fetch is issued — the claimed behaviour is not unconditional on 2xx. -/
theorem enroll_2xx_nonjson_no_refetch :
    requestsOf (enrollInCourse (FetchResult.response 200 none)
        DashFetch.networkError dom0).2 = [Effect.request "/api/enroll"]
    ∧ (enrollInCourse (FetchResult.response 200 none)
        DashFetch.networkError dom0).1.status.textContent
        = "An error occurred during enrollment."
    ∧ "error-message" ∈ (enrollInCourse (FetchResult.response 200 none)
        DashFetch.networkError dom0).1.status.classes := by decide

/-- C2 (amended): for every 2xx mutation response whose body parses as
JSON, each of the three actions sets the in-progress status, issues its
POST, sets the success status (server message when present and
non-empty, else the fixed default) and then invokes the dashboard fetch
exactly once: the effect trace after the first three effects is exactly
one run of `fetchDashboardData`, and the request list is the action POST
followed by exactly one dashboard GET. -/
theorem mutation_2xx_json_success_refetch (s : Nat) (data : RespBody) (dash : DashFetch)
    (d : Dom) (h : respOkStatus s = true) :
    ((enrollInCourse (.response s (some data)) dash d).2.take 3
        = [Effect.setStatus "Enrolling..." "info", Effect.request "/api/enroll",
           Effect.setStatus (jsOr data.message "Successfully enrolled!") "success"]
      ∧ (enrollInCourse (.response s (some data)) dash d).2.drop 3
          = (fetchDashboardData dash d).2
      ∧ requestsOf (enrollInCourse (.response s (some data)) dash d).2
          = [Effect.request "/api/enroll", Effect.request "/api/dashboard"])
    ∧ ((disenrollFromCourse (.response s (some data)) dash d).2.take 3
        = [Effect.setStatus "Disenrolling..." "info", Effect.request "/api/disenroll",
           Effect.setStatus (jsOr data.message "Successfully disenrolled!") "success"]
      ∧ (disenrollFromCourse (.response s (some data)) dash d).2.drop 3
          = (fetchDashboardData dash d).2
      ∧ requestsOf (disenrollFromCourse (.response s (some data)) dash d).2
          = [Effect.request "/api/disenroll", Effect.request "/api/dashboard"])
    ∧ ((markCourseAsFinished (.response s (some data)) dash d).2.take 3
        = [Effect.setStatus "Marking as finished..." "info",
           Effect.request "/api/course/finish",
           Effect.setStatus (jsOr data.message "Course marked as finished!") "success"]
      ∧ (markCourseAsFinished (.response s (some data)) dash d).2.drop 3
          = (fetchDashboardData dash d).2
      ∧ requestsOf (markCourseAsFinished (.response s (some data)) dash d).2
          = [Effect.request "/api/course/finish", Effect.request "/api/dashboard"]) := by
  refine ⟨⟨?_, ?_, ?_⟩, ⟨?_, ?_, ?_⟩, ⟨?_, ?_, ?_⟩⟩ <;>
    simp only [enrollInCourse, disenrollFromCourse, markCourseAsFinished, h, if_true,
      List.cons_append, List.nil_append, List.take, List.drop] <;>
    first
      | rfl
      | exact fetchDashboardData_trace_irrel dash _ d
      | (rw [show ∀ x y (zs : List Effect), x :: y :: zs = [x, y] ++ zs from fun _ _ _ => rfl,
            requestsOf_append]
         simp only [requestsOf_setStatus_cons]
         rw [requestsOf_fetchDashboardData]
         rfl)

/-- C2 witness: the amended theorem instantiated at the spec's example, a
200 response with body `{message: "Enrolled!"}`. -/
theorem mutation_2xx_json_success_refetch_witness :
    (enrollInCourse (FetchResult.response 200 (some ⟨some "Enrolled!"⟩))
        DashFetch.networkError dom0).2.take 3
      = [Effect.setStatus "Enrolling..." "info", Effect.request "/api/enroll",
         Effect.setStatus "Enrolled!" "success"]
    ∧ requestsOf (enrollInCourse (FetchResult.response 200 (some ⟨some "Enrolled!"⟩))
        DashFetch.networkError dom0).2
      = [Effect.request "/api/enroll", Effect.request "/api/dashboard"] := by
  have h := mutation_2xx_json_success_refetch 200 ⟨some "Enrolled!"⟩
    DashFetch.networkError dom0 (by decide)
  exact ⟨h.1.1.trans (by decide), h.1.2.2⟩

/-- C3: a failed mutation (non-2xx response or network failure) leaves
the three rendered bucket lists and the greeting untouched, issues only
its own POST (no dashboard re-fetch), and updates only the status
message: the server-provided message when present, else the fixed
default naming the HTTP status, and the generic connectivity message on
network failure. -/
theorem mutation_failure_preserves_buckets (resp : FetchResult) (dash : DashFetch) (d : Dom)
    (h : mutationFailed resp = true) :
    ((enrollInCourse resp dash d).1.enrolledList = d.enrolledList
      ∧ (enrollInCourse resp dash d).1.availableList = d.availableList
      ∧ (enrollInCourse resp dash d).1.finishedList = d.finishedList
      ∧ (enrollInCourse resp dash d).1.studentName = d.studentName
      ∧ requestsOf (enrollInCourse resp dash d).2 = [Effect.request "/api/enroll"])
    ∧ ((disenrollFromCourse resp dash d).1.enrolledList = d.enrolledList
      ∧ (disenrollFromCourse resp dash d).1.availableList = d.availableList
      ∧ (disenrollFromCourse resp dash d).1.finishedList = d.finishedList
      ∧ (disenrollFromCourse resp dash d).1.studentName = d.studentName
      ∧ requestsOf (disenrollFromCourse resp dash d).2 = [Effect.request "/api/disenroll"])
    ∧ ((markCourseAsFinished resp dash d).1.enrolledList = d.enrolledList
      ∧ (markCourseAsFinished resp dash d).1.availableList = d.availableList
      ∧ (markCourseAsFinished resp dash d).1.finishedList = d.finishedList
      ∧ (markCourseAsFinished resp dash d).1.studentName = d.studentName
      ∧ requestsOf (markCourseAsFinished resp dash d).2 = [Effect.request "/api/course/finish"])
    ∧ (∀ s body, resp = FetchResult.response s body →
        (enrollInCourse resp dash d).1.status.textContent
          = jsOr (optMessage body) ("Enrollment failed (Status: " ++ toString s ++ ")")
        ∧ (disenrollFromCourse resp dash d).1.status.textContent
          = jsOr (optMessage body) ("Disenrollment failed (Status: " ++ toString s ++ ")")
        ∧ (markCourseAsFinished resp dash d).1.status.textContent
          = jsOr (optMessage body) ("Failed to mark as finished (Status: " ++ toString s ++ ")"))
    ∧ (resp = FetchResult.networkError →
        (enrollInCourse resp dash d).1.status.textContent
          = "An error occurred during enrollment."
        ∧ (disenrollFromCourse resp dash d).1.status.textContent
          = "An error occurred during disenrollment."
        ∧ (markCourseAsFinished resp dash d).1.status.textContent
          = "An error occurred while marking the course as finished.") := by
  cases resp with
  | networkError =>
    refine ⟨⟨rfl, rfl, rfl, rfl, rfl⟩, ⟨rfl, rfl, rfl, rfl, rfl⟩, ⟨rfl, rfl, rfl, rfl, rfl⟩,
      ?_, ?_⟩
    · intro s body heq
      simp at heq
    · intro _
      refine ⟨?_, ?_, ?_⟩ <;>
        simp [enrollInCourse, disenrollFromCourse, markCourseAsFinished,
          setStatusMessage_textContent]
  | response s body =>
    have hs : respOkStatus s = false := by simpa [mutationFailed] using h
    refine ⟨⟨?_, ?_, ?_, ?_, ?_⟩, ⟨?_, ?_, ?_, ?_, ?_⟩, ⟨?_, ?_, ?_, ?_, ?_⟩, ?_, ?_⟩
    case _ : (∀ s' body', _ → _ ∧ _ ∧ _) =>
      intro s' body' heq
      injection heq with h1 h2
      subst h1; subst h2
      refine ⟨?_, ?_, ?_⟩ <;>
        simp [enrollInCourse, disenrollFromCourse, markCourseAsFinished, hs,
          setStatusMessage_textContent]
    case _ : (FetchResult.response s body = FetchResult.networkError → _) =>
      intro heq
      simp at heq
    all_goals
      simp [enrollInCourse, disenrollFromCourse, markCourseAsFinished, hs, requestsOf]

/-- C3 witness: the failure theorem instantiated at the spec's example, a
409 enroll response with body `{message: "Already enrolled"}`. -/
theorem mutation_failure_preserves_buckets_witness :
    (enrollInCourse (FetchResult.response 409 (some ⟨some "Already enrolled"⟩))
        DashFetch.networkError dom0).1.status.textContent = "Already enrolled"
    ∧ (enrollInCourse (FetchResult.response 409 (some ⟨some "Already enrolled"⟩))
        DashFetch.networkError dom0).1.enrolledList = dom0.enrolledList
    ∧ requestsOf (enrollInCourse (FetchResult.response 409 (some ⟨some "Already enrolled"⟩))
        DashFetch.networkError dom0).2 = [Effect.request "/api/enroll"] := by
  have h := mutation_failure_preserves_buckets
    (FetchResult.response 409 (some ⟨some "Already enrolled"⟩)) DashFetch.networkError dom0
    (by decide)
  exact ⟨((h.2.2.2.1 409 (some ⟨some "Already enrolled"⟩) rfl).1).trans (by decide),
    h.1.1, h.1.2.2.2.2⟩

/-- C4 counterexample: a click on a Disenroll button without a course-id
attribute inside the enrolled list is silently ignored: no error is
logged and no status message is set (the claim expects both), though
indeed no action is invoked. -/
theorem enrolledClick_missing_id_silent :
    enrolledListClick ["disenroll-button"] none = []
    ∧ Effect.consoleError ∉ enrolledListClick ["disenroll-button"] none
    ∧ actionsOf (enrolledListClick ["disenroll-button"] none) = [] := by decide

/-- C4 (amended): on a click whose element carries an action class but a
falsy course id, no action is invoked (hence no network call) in either
list; in the available list the handler additionally logs an error and
sets the could-not-identify status message, while the enrolled-list
handler returns silently with no logging and no status change. -/
theorem click_without_course_id (classes : List String) (cid : Option String)
    (h : jsTruthy cid = false) :
    (classes.contains "enroll-button" = true →
        availableListClick classes cid
          = [Effect.consoleError,
             Effect.setStatus "Error: Could not identify course to enroll." "error"])
    ∧ enrolledListClick classes cid = []
    ∧ actionsOf (availableListClick classes cid) = []
    ∧ actionsOf (enrolledListClick classes cid) = [] := by
  have ha : availableListClick classes cid
      = if classes.contains "enroll-button" then
          [Effect.consoleError,
           Effect.setStatus "Error: Could not identify course to enroll." "error"]
        else [] := by
    simp [availableListClick, h]
  have he : enrolledListClick classes cid = [] := by
    simp [enrolledListClick, h]
  refine ⟨?_, he, ?_, ?_⟩
  · intro hc
    rw [ha, if_pos hc]
  · rw [ha]
    split <;> rfl
  · rw [he]
    rfl

/-- C4 witness: the amended theorem instantiated at an Enroll button and
a Mark-as-Finished button with no course id. -/
theorem click_without_course_id_witness :
    availableListClick ["enroll-button"] none
      = [Effect.consoleError,
         Effect.setStatus "Error: Could not identify course to enroll." "error"]
    ∧ enrolledListClick ["mark-finished-button"] none = [] :=
  ⟨(click_without_course_id ["enroll-button"] none (by decide)).1 (by decide),
   (click_without_course_id ["mark-finished-button"] none (by decide)).2.1⟩

/-- C8: the signup submit handler validates in order — any empty field
(name and email after trimming) blocks with "Please fill in all
fields.", then a password/confirmation mismatch blocks with "Passwords
do not match.", then a password shorter than 6 characters blocks with
"Password must be at least 6 characters long." — and only when all
checks pass does it submit the POST payload `{name, email, password}`. -/
theorem signup_validation_order (n e p c : String) :
    ((jsTrim n = "" ∨ jsTrim e = "" ∨ p = "" ∨ c = "") →
        signupSubmit n e p c = SignupOutcome.blocked "Please fill in all fields.")
    ∧ (jsTrim n ≠ "" → jsTrim e ≠ "" → p ≠ "" → c ≠ "" → p ≠ c →
        signupSubmit n e p c = SignupOutcome.blocked "Passwords do not match.")
    ∧ (jsTrim n ≠ "" → jsTrim e ≠ "" → p ≠ "" → c ≠ "" → p = c → p.length < 6 →
        signupSubmit n e p c
          = SignupOutcome.blocked "Password must be at least 6 characters long.")
    ∧ (jsTrim n ≠ "" → jsTrim e ≠ "" → p ≠ "" → c ≠ "" → p = c → ¬(p.length < 6) →
        signupSubmit n e p c = SignupOutcome.submit (jsTrim n) (jsTrim e) p) := by
  refine ⟨?_, ?_, ?_, ?_⟩
  · intro h
    simp only [signupSubmit]
    rw [if_pos h]
  · intro h1 h2 h3 h4 h5
    simp [signupSubmit, h1, h2, h3, h4, h5]
  · intro h1 h2 h3 h4 h5 h6
    subst h5
    simp [signupSubmit, h1, h2, h3, h4, h6]
  · intro h1 h2 h3 h4 h5 h6
    subst h5
    simp [signupSubmit, h1, h2, h3, h4, h6]

/-- C8 witness: the validation theorem instantiated at the spec's example
inputs for each of the three violations and for a passing submission. -/
theorem signup_validation_order_witness :
    signupSubmit "" "a@b.com" "pw123456" "pw123456"
      = SignupOutcome.blocked "Please fill in all fields."
    ∧ signupSubmit "john" "a@b.com" "abcdef" "abcdxx"
      = SignupOutcome.blocked "Passwords do not match."
    ∧ signupSubmit "john" "a@b.com" "abc" "abc"
      = SignupOutcome.blocked "Password must be at least 6 characters long."
    ∧ signupSubmit "john" "a@b.com" "abcdef" "abcdef"
      = SignupOutcome.submit "john" "a@b.com" "abcdef" := by
  refine ⟨(signup_validation_order "" "a@b.com" "pw123456" "pw123456").1
      (Or.inl (by decide)),
    (signup_validation_order "john" "a@b.com" "abcdef" "abcdxx").2.1
      (by decide) (by decide) (by decide) (by decide) (by decide),
    (signup_validation_order "john" "a@b.com" "abc" "abc").2.2.1
      (by decide) (by decide) (by decide) (by decide) (by decide) (by decide),
    ((signup_validation_order "john" "a@b.com" "abcdef" "abcdef").2.2.2
      (by decide) (by decide) (by decide) (by decide) (by decide) (by decide)).trans
      (by decide)⟩
